import Mathlib

/-!
Verification of the document-summarization pipeline of `src/summarizer.py`
(the IPaper repository).  The Python functions are shallowly embedded as
executable Lean definitions; machine-independent data (strings, lists,
dictionaries parsed from JSON) is modelled directly.  The OpenAI client and
`json.loads` are external collaborators: they are abstracted as parameters
(an oracle mapping the index of a completion call to a response or a
transport failure, and a `decode : String -> Option PyVal` function), and
every theorem that depends on them quantifies over those parameters.

Several of the embedded text scanners are written with an explicit fuel
argument (always instantiated with the length of the input plus one).  Each
step of every scanner consumes at least one character of input, so the fuel
never runs out and the functions agree with the Python regular-expression
substitutions they embed on every input.
-/

set_option maxRecDepth 20000

namespace IPaper

/-! ## Python-style character and string primitives -/

/-- The six ASCII characters matched by Python's `\s` / `str.strip()` /
`str.split()` on ASCII input: space, tab, newline, carriage return,
vertical tab and form feed. -/
def pyIsSpace (c : Char) : Bool :=
  c = ' ' || c = '\t' || c = '\n' || c = '\r' || c = '\x0b' || c = '\x0c'

/-- Python `str.strip()` on a character list. -/
def pyStripL (l : List Char) : List Char :=
  ((l.dropWhile pyIsSpace).reverse.dropWhile pyIsSpace).reverse

/-- Python `str.strip()`. -/
def pyStrip (s : String) : String :=
  ⟨pyStripL s.data⟩

/-- Python `str.rstrip(bad)` on a character list: remove trailing characters
that belong to `bad`. -/
def pyRstrip (l : List Char) (bad : List Char) : List Char :=
  (l.reverse.dropWhile (fun c => c ∈ bad)).reverse

/-- One step of Python `str.replace(old, new)` (with `old` nonempty), written
with fuel; each step consumes at least one input character. -/
def replaceGo (old new : List Char) : Nat → List Char → List Char
  | 0, cs => cs
  | _ + 1, [] => []
  | fuel + 1, c :: cs =>
    if old ≠ [] ∧ old.isPrefixOf (c :: cs) then
      new ++ replaceGo old new fuel ((c :: cs).drop old.length)
    else
      c :: replaceGo old new fuel cs

/-- Python `s.replace(old, new)` for nonempty `old`: replace every
non-overlapping occurrence, scanning left to right. -/
def pyReplace (s old new : String) : String :=
  ⟨replaceGo old.data new.data (s.data.length + 1) s.data⟩

/-- Python `str.split()` (no separator): split on runs of whitespace,
dropping empty pieces; fueled scanner. -/
def pySplitGo : Nat → List Char → List (List Char)
  | 0, _ => []
  | fuel + 1, cs =>
    let cs1 := cs.dropWhile pyIsSpace
    match cs1 with
    | [] => []
    | _ =>
      cs1.takeWhile (fun c => !pyIsSpace c) ::
        pySplitGo fuel (cs1.dropWhile (fun c => !pyIsSpace c))

/-- Python `s.split()`. -/
def pySplitWs (s : String) : List String :=
  (pySplitGo (s.data.length + 1) s.data).map (fun l => ⟨l⟩)

/-- Index of the first occurrence of `pat` as a contiguous sublist. -/
def findSub (pat : List Char) : List Char → Option Nat
  | [] => none
  | c :: cs =>
    if pat.isPrefixOf (c :: cs) then some 0
    else (findSub pat cs).map (· + 1)

/-! ## Python exceptions

`PyErr` models the exceptions the pipeline can raise: `ValueError`
(template and content errors), `_APIError` (transport failures),
`AttributeError` (raised by `_clean_inline` on a truthy non-string, or by
`.get` on a non-dictionary block), and `re.error` — raised by `_strip_md`,
whose first substitution uses a pattern that Python's regular-expression
compiler rejects. -/

inductive PyErr where
  | valueError (msg : String)
  | apiError (msg : String)
  | attributeError (msg : String)
  | reError (msg : String)
deriving DecidableEq

/-- The message of the `re.error` raised when compiling line 350's pattern
`r"{1,3}[\s\S]*?{1,3}"`: the `{1,3}` at the start of the pattern is a
quantifier with nothing preceding it. -/
def reMsg : String := "nothing to repeat at position 0"

/-- `_strip_md` (summarizer.py lines 347-357).  Line 349 replaces tabs (a
pure operation), but line 350 then calls
`re.sub(r"{1,3}[\s\S]*?{1,3}", "", s)`, whose pattern is an *invalid*
Python regular expression: `{1,3}` at the start of a pattern is a
quantifier with nothing to repeat, so `re.sub` raises
`re.error("nothing to repeat at position 0")`.  Failed compilations are not
cached, so *every* call of `_strip_md` raises `re.error` before producing
any output; the substitutions of lines 351-357 are unreachable. -/
def strip_md (_s : String) : Except PyErr String :=
  .error (.reError reMsg)

/-- `re.sub(r"\s{2,}", " ", s)`: each maximal whitespace run of length at
least two becomes a single space; single whitespace characters stay. -/
def collapseGo : Nat → List Char → List Char
  | 0, cs => cs
  | fuel + 1, cs =>
    match cs with
    | [] => []
    | [c] => [c]
    | c :: c2 :: rest =>
      if pyIsSpace c && pyIsSpace c2 then
        ' ' :: collapseGo fuel ((c2 :: rest).dropWhile pyIsSpace)
      else
        c :: collapseGo fuel (c2 :: rest)

/-- `re.sub(r"\s{2,}", " ", s)` on strings. -/
def collapseWs (s : String) : String :=
  ⟨collapseGo (s.data.length + 1) s.data⟩

/-- `_clean_inline` (summarizer.py lines 360-364): single-line cleanup.
`s.replace("\n", " ").replace("\r", " ")` maps the two newline characters
to spaces; `.replace("*", "").replace("", "").replace("`", "")` deletes
asterisks and backticks (the middle `.replace("", "")` is the identity in
Python); then whitespace runs are collapsed and the ends stripped. -/
def clean_inline (s : String) : String :=
  let l := s.data.map (fun c => if c = '\n' || c = '\r' then ' ' else c)
  let l := l.filter (fun c => !(c = '*' || c = '`'))
  pyStrip (collapseWs ⟨l⟩)

/-! ## Python values parsed from JSON

`json.loads` can return nested dictionaries, lists, strings, integers,
booleans and `None`; dictionaries are modelled as association lists in
insertion order (`json.loads` never produces duplicate keys: a repeated key
overwrites the earlier one while parsing).  JSON floats are not modelled;
no claim depends on numeric values. -/

inductive PyVal where
  | null
  | bool (b : Bool)
  | int (n : Int)
  | str (s : String)
  | list (xs : List PyVal)
  | dict (kvs : List (String × PyVal))

/-- Python truthiness of the modelled values. -/
def pyTruthy : PyVal → Bool
  | .null => false
  | .bool b => b
  | .int n => n ≠ 0
  | .str s => s ≠ ""
  | .list xs => !xs.isEmpty
  | .dict kvs => !kvs.isEmpty

/-- `isinstance(v, dict)`. -/
def pyIsDict : PyVal → Bool
  | .dict _ => true
  | _ => false

/-- Python `repr` of a string: single quotes (double quotes when the string
contains `'` but no `"`), with backslash, the quote character, newline,
carriage return, tab and other control characters escaped. -/
def pyReprStr (s : String) : String :=
  let q : Char := if s.data.contains '\'' && !s.data.contains '"' then '"' else '\''
  let esc : Char → String := fun c =>
    if c = '\\' then "\\\\"
    else if c = q then "\\" ++ String.mk [q]
    else if c = '\n' then "\\n"
    else if c = '\r' then "\\r"
    else if c = '\t' then "\\t"
    else if c.val < 32 || c.val = 127 then
      let hex : Nat → Char := fun n => if n < 10 then Char.ofNat (48 + n) else Char.ofNat (87 + n)
      "\\x" ++ String.mk [hex (c.toNat / 16), hex (c.toNat % 16)]
    else String.mk [c]
  String.mk [q] ++ String.join (s.data.map esc) ++ String.mk [q]

mutual

/-- Python `str`/`repr` of a parsed JSON value (for non-container values
`str` and `repr` differ only on strings, and `str` of a string is the
string itself, as used by `_clean_value`). -/
def pyStr : PyVal → String
  | .null => "None"
  | .bool b => if b then "True" else "False"
  | .int n => toString n
  | .str s => s
  | .list xs => "[" ++ String.intercalate ", " (pyStrList xs) ++ "]"
  | .dict kvs => "\x7b" ++ String.intercalate ", " (pyStrKVs kvs) ++ "\x7d"

def pyStrList : List PyVal → List String
  | [] => []
  | v :: vs => pyReprVal v :: pyStrList vs

def pyStrKVs : List (String × PyVal) → List String
  | [] => []
  | (k, v) :: kvs => (pyReprStr k ++ ": " ++ pyReprVal v) :: pyStrKVs kvs

/-- Python `repr` of a parsed JSON value (elements inside containers are
rendered with `repr`, so strings get quoted). -/
def pyReprVal : PyVal → String
  | .str s => pyReprStr s
  | .null => "None"
  | .bool b => if b then "True" else "False"
  | .int n => toString n
  | .list xs => "[" ++ String.intercalate ", " (pyStrList xs) ++ "]"
  | .dict kvs => "\x7b" ++ String.intercalate ", " (pyStrKVs kvs) ++ "\x7d"

end

/-- Python `dict.get(k, default)` on an association list without duplicate
keys. -/
def dictGet (kvs : List (String × PyVal)) (k : String) (dflt : PyVal) : PyVal :=
  match kvs.find? (fun kv => kv.1 = k) with
  | some kv => kv.2
  | none => dflt

/-- `_clean_value` (summarizer.py lines 367-374): `str(v or "")`, strip,
then `_strip_md` (line 369) — which raises `re.error` on every call, so
`_clean_value` always raises; the whitespace collapse and
terminal-punctuation steps of lines 371-373, embedded here for
completeness, are unreachable. -/
def clean_value (v : PyVal) : Except PyErr String := do
  let s := pyStrip (if pyTruthy v then pyStr v else "")
  let s ← strip_md s
  let s := collapseWs s
  match s.data.getLast? with
  | none => pure s
  | some c => if c = '.' || c = '!' || c = '?' then pure s else pure (s ++ ".")

/-- `_clean_value` applied to an already-Python-string value, as in
`_clean_value(src.get(lab, "Not reported."))` (line 270); like
`_clean_value` itself, it raises `re.error` on every call. -/
def clean_value_s (s : String) : Except PyErr String :=
  clean_value (.str s)

/-- `_clean_value` propagates the `re.error` of `_strip_md` on every
input. -/
theorem clean_value_raises (v : PyVal) :
    clean_value v = .error (.reError reMsg) := rfl

/-- Configuration constants (summarizer.py lines 8-13). -/
def MAX_CHARS_PER_CHUNK : Nat := 8000

def CHUNK_OVERLAP : Nat := 600

def MAX_RETRIES : Nat := 2

def SENTENCE_MAX_WORDS : Nat := 30

/-- `_enforce_sentence_length` (summarizer.py lines 377-385): keep a value
of at most `SENTENCE_MAX_WORDS` words unchanged; otherwise join the first
`SENTENCE_MAX_WORDS` words, strip trailing `,`/`;`/`:` characters, and
append a `.` unless the result already ends in terminal punctuation. -/
def enforce_sentence_length (s : String) : String :=
  let words := pySplitWs s
  if words.length ≤ SENTENCE_MAX_WORDS then s
  else
    let trimmed : String := ⟨pyRstrip (String.intercalate " " (words.take SENTENCE_MAX_WORDS)).data [',', ';', ':']⟩
    match trimmed.data.getLast? with
    | none => trimmed
    | some c => if c = '.' || c = '!' || c = '?' then trimmed else trimmed ++ "."

/-! ## `_smart_split` (summarizer.py lines 60-110), the Chunker -/

/-- `re.split(r"\n{2,}", text)`: split at each maximal run of two or more
newlines (empty pieces included, as `re.split` produces them). -/
def splitParasGo : Nat → List Char → List Char → List (List Char)
  | 0, acc, _ => [acc.reverse]
  | fuel + 1, acc, cs =>
    match cs with
    | '\n' :: '\n' :: rest =>
      acc.reverse :: splitParasGo fuel [] (rest.dropWhile (· = '\n'))
    | c :: rest => splitParasGo fuel (c :: acc) rest
    | [] => [acc.reverse]

def splitParas (l : List Char) : List (List Char) :=
  splitParasGo (l.length + 1) [] l

/-- Lookahead class of `_DEF_SENT_SPLIT` (line 57): `[A-Z0-9(]`. -/
def sentLookahead (c : Char) : Bool :=
  ('A' ≤ c && c ≤ 'Z') || ('0' ≤ c && c ≤ '9') || c = '('

/-- `_DEF_SENT_SPLIT.split(p)` with pattern
`(?<=[.!?])\s+(?=[A-Z0-9(])`: split where a sentence terminator is followed
by a maximal whitespace run whose next character is an uppercase letter, a
digit or `(` (the greedy `\s+` cannot stop inside the run: the lookahead
would see whitespace). The whitespace run is the delimiter and is removed. -/
def sentSplitGo : Nat → List Char → Option Char → List Char → List (List Char)
  | 0, acc, _, _ => [acc.reverse]
  | fuel + 1, acc, prev, cs =>
    match cs with
    | [] => [acc.reverse]
    | c :: rest =>
      if (prev = some '.' || prev = some '!' || prev = some '?') && pyIsSpace c then
        let ws := (c :: rest).takeWhile pyIsSpace
        let after := (c :: rest).dropWhile pyIsSpace
        match after with
        | a :: _ =>
          if sentLookahead a then
            acc.reverse :: sentSplitGo fuel [] ws.getLast? after
          else
            sentSplitGo fuel (c :: acc) (some c) rest
        | [] => sentSplitGo fuel (c :: acc) (some c) rest
      else
        sentSplitGo fuel (c :: acc) (some c) rest

def sentSplit (l : List Char) : List (List Char) :=
  sentSplitGo (l.length + 1) [] none l

/-- Python `s[-n:]` for `n > 0`: the last `min n (length)` characters. -/
def lastChars (n : Nat) (l : List Char) : List Char :=
  l.drop (l.length - n)

/-- The mutable state of `_smart_split`'s packing loop: the finished
`chunks`, the pending buffer `buf`, and the running length `cur`. -/
structure PackState where
  chunks : List (List Char)
  buf : List (List Char)
  cur : Nat

/-- `flush_buf` (lines 71-74): append `"\n\n".join(buf).strip()` to the
chunks when it is nonempty (the buffer itself is not cleared). -/
def flushBuf (st : PackState) : List (List Char) :=
  let s := pyStripL ((String.intercalate "\n\n" (st.buf.map (fun l => ⟨l⟩))).data)
  if s.isEmpty then st.chunks else st.chunks ++ [s]

/-- The sentence-level branch of the packing loop (lines 83-97). -/
def packSent (maxLen overlap : Nat) (st : PackState) (s : List Char) : PackState :=
  if st.cur + s.length + 1 ≤ maxLen then
    { st with buf := st.buf ++ [s], cur := st.cur + s.length + 1 }
  else
    let chunks' := flushBuf st
    if overlap ≠ 0 ∧ chunks' ≠ [] then
      let tail := lastChars overlap (chunks'.getLastD [])
      { chunks := chunks', buf := [tail ++ s], cur := tail.length + s.length }
    else
      { chunks := chunks', buf := [s], cur := s.length }

/-- The paragraph-level loop body (lines 76-97). -/
def packPara (maxLen overlap : Nat) (st : PackState) (p : List Char) : PackState :=
  if st.cur + p.length + 2 ≤ maxLen then
    { st with buf := st.buf ++ [p], cur := st.cur + p.length + 2 }
  else
    (sentSplit p).foldl (packSent maxLen overlap) st

/-- The hard-slice loop (lines 106-109): emit `ch[i:i+max_len]` and advance
`i` by `max_len - overlap` when `overlap < max_len`, else by `max_len`.
With `max_len = 0` the Python loop does not terminate; the fuel (length of
the sliced chunk plus one) covers every terminating run. -/
def hardSliceGo (maxLen overlap : Nat) : Nat → List Char → List (List Char)
  | 0, _ => []
  | fuel + 1, ch =>
    if ch.isEmpty then []
    else
      let step := if overlap < maxLen then maxLen - overlap else maxLen
      ch.take maxLen :: hardSliceGo maxLen overlap fuel (ch.drop step)

def hardSlice (maxLen overlap : Nat) (ch : List Char) : List (List Char) :=
  hardSliceGo maxLen overlap (ch.length + 1) ch

/-- The final safety pass (lines 100-110). -/
def finalSafety (maxLen overlap : Nat) : List (List Char) → List (List Char)
  | [] => []
  | ch :: rest =>
    (if ch.length ≤ maxLen then [ch] else hardSlice maxLen overlap ch) ++
      finalSafety maxLen overlap rest

/-- `_smart_split` (summarizer.py lines 60-110). -/
def smart_split (text : String) (maxLen overlap : Nat) : List String :=
  if text.data.length ≤ maxLen then [text]
  else
    let paras := splitParas text.data
    let st := paras.foldl (packPara maxLen overlap) ⟨[], [], 0⟩
    let chunks := flushBuf st
    (finalSafety maxLen overlap chunks).map (fun l => ⟨l⟩)

/-! ## Data model

A caller-supplied template is the well-shaped dictionary
`{"sections": [{"heading": str, "items": [str, ...]}, ...]}`; it is
modelled by a structure (so the `"sections" not in template` /
`not isinstance(template["sections"], list)` check of
`_make_output_instructions` always passes — note that an *empty* sections
list also passes that check).  The validator's output
`{"blocks": [{"heading": ..., "items": [{"label": ..., "value": ...}]}]}`
is the `StructuredSummary`. -/

structure Sec where
  heading : String
  items : List String
deriving DecidableEq

structure Template where
  sections : List Sec
deriving DecidableEq

structure Item where
  label : String
  value : String
deriving DecidableEq

structure Block where
  heading : String
  items : List Item
deriving DecidableEq

structure Summary where
  blocks : List Block
deriving DecidableEq

/-! ## `_make_output_instructions` (summarizer.py lines 173-209) -/

/-- The fixed instruction lines (lines 190-198). -/
def instructionBase : List String :=
  [ "Return ONLY a single JSON object with EXACTLY this structure:",
    "\x7b\n  \"blocks\": [\n    \x7b \"heading\": string, \"items\": [ \x7b \"label\": string, \"value\": string \x7d, ... ] \x7d,\n    ...\n  ]\n\x7d",
    "Rules:",
    "- No Markdown, no bullet signs, no code fences, no extra keys.",
    "- Use the EXACT order and labels below; do not add, remove, or rename items.",
    "- Each value must be one short sentence (≤" ++ toString SENTENCE_MAX_WORDS ++ " words).",
    "- If a field is not in the paper, write 'Not reported.'" ]

/-- The per-section loop of `_make_output_instructions` (lines 200-207),
with 1-based index: raise `ValueError(f"Invalid section at index {i}")` at
the first section whose cleaned heading is empty or whose item list is
empty. -/
def instructionSections : Nat → List Sec → Except PyErr (List String × List (String × List String))
  | _, [] => .ok ([], [])
  | i, sec :: rest =>
    let heading := clean_inline (pyStrip sec.heading)
    let items := sec.items.map clean_inline
    if heading = "" ∨ items.isEmpty then
      .error (.valueError ("Invalid section at index " ++ toString i))
    else do
      let (ls, shp) ← instructionSections (i + 1) rest
      .ok ((toString i ++ ") Heading: " ++ heading) ::
             ("   Items: " ++ String.intercalate " | " items) :: ls,
           (heading, items) :: shp)

/-- `_make_output_instructions`: the deterministic instruction text and the
cleaned `(heading, item labels)` shape, or a template `ValueError`. -/
def make_output_instructions (t : Template) :
    Except PyErr (String × List (String × List String)) := do
  let (secLines, shape) ← instructionSections 1 t.sections
  .ok (String.intercalate "\n" (instructionBase ++ secLines), shape)

/-! ## Schema locking (`_parse_repair_and_lock_schema`, lines 219-274) -/

/-- `_clean_inline(x)` applied to a parsed JSON value `x`: `(s or "")`
yields `""` for every falsy value, a truthy string is cleaned, and a truthy
non-string raises `AttributeError` at `.replace`. -/
def cleanInlinePy (v : PyVal) : Except PyErr String :=
  if !pyTruthy v then .ok (clean_inline "")
  else match v with
    | .str s => .ok (clean_inline s)
    | .int _ => .error (.attributeError "'int' object has no attribute 'replace'")
    | .bool _ => .error (.attributeError "'bool' object has no attribute 'replace'")
    | .list _ => .error (.attributeError "'list' object has no attribute 'replace'")
    | .dict _ => .error (.attributeError "'dict' object has no attribute 'replace'")
    | .null => .ok (clean_inline "")

/-- Overwriting insertion into a function-backed map (a Python dictionary
assignment `m[k] = v`; only lookups are performed afterwards). -/
def insertMap {α : Type} (m : String → Option α) (k : String) (v : α) :
    String → Option α :=
  fun q => if q = k then some v else m q

/-- The inner loop of lines 257-262: build `label_map` from the `items` list
of one incoming block, skipping non-dictionary items and empty labels.
Every dictionary item calls `_clean_value` (line 260), which raises
`re.error`, so the loop completes only when no dictionary item occurs. -/
def buildLabelMap : List PyVal → (String → Option String) →
    Except PyErr (String → Option String)
  | [], m => .ok m
  | it :: rest, m =>
    match it with
    | .dict kvs => do
      let label ← cleanInlinePy (dictGet kvs "label" (.str ""))
      let value ← clean_value (dictGet kvs "value" (.str ""))
      if label ≠ "" then buildLabelMap rest (insertMap m label value)
      else buildLabelMap rest m
    | _ => buildLabelMap rest m

/-- The loop of lines 253-264: map incoming blocks by cleaned heading; a
non-dictionary block raises `AttributeError` at `b.get`. -/
def buildSourceBlocks : List PyVal → (String → Option (String → Option String)) →
    Except PyErr (String → Option (String → Option String))
  | [], m => .ok m
  | b :: rest, m =>
    match b with
    | .dict kvs => do
      let heading ← cleanInlinePy (dictGet kvs "heading" (.str ""))
      let items := match dictGet kvs "items" (.list []) with
        | .list l => l
        | _ => []
      let lm ← buildLabelMap items (fun _ => none)
      if heading ≠ "" then buildSourceBlocks rest (insertMap m heading lm)
      else buildSourceBlocks rest m
    | _ => .error (.attributeError "object has no attribute 'get'")

/-- Line 246: the expected cleaned `(heading, labels)` pairs taken from the
template, in template order. -/
def expectedShape (t : Template) : List (String × List String) :=
  t.sections.map (fun sec => (clean_inline sec.heading, sec.items.map clean_inline))

/-- Lines 268-271, the per-label loop of one locked output block:
`_clean_value(src.get(lab, "Not reported."))` raises `re.error` for every
label — present or absent — so the loop succeeds only on an empty label
list. -/
def lockedItems (src : String → Option String) :
    List String → Except PyErr (List Item)
  | [] => .ok []
  | lab :: rest => do
    let val ← clean_value_s ((src lab).getD "Not reported.")
    let items ← lockedItems src rest
    .ok ({ label := lab, value := enforce_sentence_length val } :: items)

/-- Lines 266-272: one locked output block per expected template section,
built strictly from the template's cleaned heading and labels, with values
looked up in the matching source block. -/
def lockedBlocks (sb : String → Option (String → Option String)) :
    List (String × List String) → Except PyErr (List Block)
  | [] => .ok []
  | hl :: rest => do
    let src : String → Option String := (sb hl.1).getD (fun _ => none)
    let items ← lockedItems src hl.2
    let blocks ← lockedBlocks sb rest
    .ok ({ heading := hl.1, items := items } :: blocks)

/-- Lines 245-274: lock the parsed `blocks` list to the template schema. -/
def lock_schema (t : Template) (blocks : List PyVal) : Except PyErr Summary := do
  let sb ← buildSourceBlocks blocks (fun _ => none)
  let bs ← lockedBlocks sb (expectedShape t)
  .ok { blocks := bs }

/-! ## Raw-text repair (`_parse_repair_and_lock_schema`, lines 219-244)

The two "code fence" regular expressions of lines 214-215 are, verbatim
from the source, `^(?:json)?\s*` and `\s*$` (both `re.MULTILINE`). -/

/-- `_CODE_FENCE_START.sub("", txt)`: at each line start, remove an optional
literal `json` and the greedy (newline-spanning) whitespace run after it;
an empty match copies one character. -/
def fenceStartGo : Nat → Bool → List Char → List Char
  | 0, _, cs => cs
  | fuel + 1, atStart, cs =>
    match cs with
    | [] => []
    | c :: rest =>
      if atStart then
        let cs1 := if ['j', 's', 'o', 'n'].isPrefixOf (c :: rest) then (c :: rest).drop 4
                   else c :: rest
        let ws := cs1.takeWhile pyIsSpace
        let cs2 := cs1.dropWhile pyIsSpace
        if cs1 ≠ c :: rest ∨ ws ≠ [] then
          fenceStartGo fuel (ws.getLast? = some '\n') cs2
        else
          c :: fenceStartGo fuel (c = '\n') rest
      else
        c :: fenceStartGo fuel (c = '\n') rest

def fenceStartSub (s : String) : String :=
  ⟨fenceStartGo (s.data.length + 1) true s.data⟩

/-- The suffix of a whitespace run starting at its last newline, when it
has one. -/
def suffixFromLastNewline (run : List Char) : Option (List Char) :=
  if run.contains '\n' then
    some ('\n' :: (run.reverse.takeWhile (· ≠ '\n')).reverse)
  else none

/-- `_CODE_FENCE_END.sub("", txt)` with pattern `\s*$` (MULTILINE): at the
start of each maximal whitespace run, the greedy-with-backtracking match
removes the longest prefix of the run ending right before a newline — or
the whole run when it reaches the end of the string; the run's last newline
and anything after it survive (only zero-width matches occur there). -/
def fenceEndGo : Nat → List Char → List Char
  | 0, cs => cs
  | fuel + 1, cs =>
    match cs with
    | [] => []
    | c :: rest =>
      if pyIsSpace c then
        let run := (c :: rest).takeWhile pyIsSpace
        let after := (c :: rest).dropWhile pyIsSpace
        match after with
        | [] => []
        | _ =>
          match suffixFromLastNewline run with
          | some keep => keep ++ fenceEndGo fuel after
          | none => run ++ fenceEndGo fuel after
      else
        c :: fenceEndGo fuel rest

def fenceEndSub (s : String) : String :=
  ⟨fenceEndGo (s.data.length + 1) s.data⟩

/-- `_LARGEST_JSON_BLOCK.search(txt)` with the greedy pattern
`\{[\s\S]*\}`: the substring from the first `{` to the last `}` after it,
when both exist. -/
def largestJsonBlock (s : String) : Option String :=
  match findSub ['\x7b'] s.data with
  | none => none
  | some i =>
    let after := s.data.drop (i + 1)
    if after.contains '\x7d' then
      some ⟨'\x7b' :: (after.reverse.dropWhile (· ≠ '\x7d')).reverse⟩
    else none

/-- Lines 220-234: strip, remove the "code fence" patterns, normalise smart
quotes, drop `,]`/`,}` sequences, and fall back to the largest
brace-delimited block when the text does not start with `{`. -/
def preprocessRaw (raw : String) : String :=
  let txt := pyStrip raw
  let txt := fenceStartSub txt
  let txt := fenceEndSub txt
  let txt := pyReplace txt "“" "\""
  let txt := pyReplace txt "”" "\""
  let txt := pyReplace txt "’" "'"
  let txt := pyReplace txt ",]" "]"
  let txt := pyReplace txt ",\x7d" "\x7d"
  match (pyStrip txt).data with
  | '\x7b' :: _ => txt
  | _ =>
    match largestJsonBlock txt with
    | some sub => sub
    | none => txt

/-- `_parse_repair_and_lock_schema` (lines 219-274).  `json.loads` is
abstracted by the `decode` parameter (`none` models a `json.JSONDecodeError`;
its Python message, interpolated into the `ValueError`, is not modelled). -/
def parse_repair_and_lock_schema (decode : String → Option PyVal) (raw : String)
    (t : Template) : Except PyErr Summary :=
  match decode (preprocessRaw raw) with
  | none =>
    .error (.valueError ("Model did not return valid JSON. Error: \nRaw (first 800 chars):\n" ++
      String.mk (raw.data.take 800)))
  | some data =>
    match data with
    | .dict kvs =>
      match kvs.find? (fun kv => kv.1 = "blocks") with
      | some (_, .list blocks) => lock_schema t blocks
      | some _ => .error (.valueError "JSON missing required top-level 'blocks' array.")
      | none => .error (.valueError "JSON missing required top-level 'blocks' array.")
    | _ => .error (.valueError "JSON missing required top-level 'blocks' array.")

/-! ## Rendering and serialization -/

/-- `_render_plain` (lines 277-293). -/
def render_plain (summary : Summary) : String :=
  let out := summary.blocks.foldl (fun (out : List String) block =>
    let heading := pyStrip block.heading
    let out := if heading ≠ "" then
        out ++ [heading, String.mk (List.replicate heading.data.length '-')]
      else out
    let out := out ++ block.items.map (fun it =>
      let label := pyStrip it.label
      let value := pyStrip (if it.value = "" then "Not reported." else it.value)
      if label ≠ "" then label ++ ": " ++ value else value)
    out ++ [""]) []
  pyStrip (String.intercalate "\n" out)

/-- One character of a JSON string under
`json.dumps(..., ensure_ascii=False)`. -/
def jsonEscapeChar (c : Char) : String :=
  if c = '"' then "\\\""
  else if c = '\\' then "\\\\"
  else if c = '\n' then "\\n"
  else if c = '\t' then "\\t"
  else if c = '\r' then "\\r"
  else if c.val = 8 then "\\b"
  else if c.val = 12 then "\\f"
  else if c.val < 32 then
    let hex : Nat → Char := fun n => if n < 10 then Char.ofNat (48 + n) else Char.ofNat (87 + n)
    "\\u00" ++ String.mk [hex (c.toNat / 16), hex (c.toNat % 16)]
  else String.mk [c]

def jsonStr (s : String) : String :=
  "\"" ++ String.join (s.data.map jsonEscapeChar) ++ "\""

/-- `json.dumps(data, ensure_ascii=False, separators=(",", ":"))` for the
locked summary object (line 51), whose dictionaries are built with keys in
the order `blocks` / `heading`, `items` / `label`, `value`. -/
def dumpsSummary (d : Summary) : String :=
  "\x7b\"blocks\":[" ++
    String.intercalate "," (d.blocks.map (fun b =>
      "\x7b\"heading\":" ++ jsonStr b.heading ++ ",\"items\":[" ++
        String.intercalate "," (b.items.map (fun it =>
          "\x7b\"label\":" ++ jsonStr it.label ++ ",\"value\":" ++ jsonStr it.value ++ "\x7d")) ++
        "]\x7d")) ++
    "]\x7d"

/-- The value tree an item of a locked summary serializes and re-parses to. -/
def itemToPyVal (it : Item) : PyVal :=
  .dict [("label", .str it.label), ("value", .str it.value)]

/-- The value tree a block of a locked summary serializes and re-parses to. -/
def blockToPyVal (b : Block) : PyVal :=
  .dict [("heading", .str b.heading), ("items", .list (b.items.map itemToPyVal))]

/-- The value tree `json.loads(json.dumps(d))` of a locked summary. -/
def summaryToPyVal (d : Summary) : PyVal :=
  .dict [("blocks", .list (d.blocks.map blockToPyVal))]

/-! ## The pipeline (`summarize_document`, lines 27-53), instrumented

The OpenAI client is abstracted as an oracle mapping the index of the
completion call (0, 1, 2, ...) to either the returned text or a transport
failure, which `_chat` surfaces as `_APIError`.  The trace records the
number of completion calls issued so far and the `time.sleep` durations (in
milliseconds) performed by the retry loop.  The `model` argument only flows
into the opaque endpoint and is not represented. -/

structure Trace where
  ncalls : Nat
  sleeps : List Nat
deriving DecidableEq

abbrev Oracle := Nat → Except String String

/-- `_chat` (lines 301-344): one completion call. -/
def chat (oracle : Oracle) (_sys _user : String) (tr : Trace) :
    Except PyErr String × Trace :=
  (match oracle tr.ncalls with
   | .ok s => .ok s
   | .error e => .error (.apiError e),
   { tr with ncalls := tr.ncalls + 1 })

/-- `SYSTEM_PROMPT` (lines 15-23). -/
def SYSTEM_PROMPT : String :=
  "You are a careful evidence summarizer. Be accurate, neutral, and concise. " ++
  "Do not invent data. If something isn’t reported, output \"Not reported.\" " ++
  "Use plain language. Extract study essentials (design, population, interventions, comparators, outcomes, results). " ++
  "Report both relative and absolute effect sizes when available. " ++
  "Identify major biases, funding, and generalizability. Provide clinician and patient-friendly summaries. " ++
  "Keep totals about 300–600 words (≤800 for meta-analyses). Units and numbers must match the paper. " ++
  "Each value must be a single short sentence (≤" ++ toString SENTENCE_MAX_WORDS ++ " words)."

/-- `{user_notes or 'None'}`. -/
def userNotesText : Option String → String
  | some s => if s = "" then "None" else s
  | none => "None"

/-- The per-chunk loop of `_summarize_in_chunks_to_notes` (lines 123-133).
There is no `try`/`except`: an `_APIError` from the completion call
propagates and aborts the loop, and after a *successful* call line 133's
`_strip_md(txt)` raises `re.error`, aborting the loop as well — so the loop
never runs past its first chunk. -/
def notesLoop (oracle : Oracle) (userNotes : Option String) (total : Nat) :
    Nat → List String → Trace → Except PyErr (List String) × Trace
  | _, [], tr => (.ok [], tr)
  | idx, ch :: rest, tr =>
    let user_prompt :=
      "Create concise notes (5–9 short sentences) capturing: methods, population, " ++
      "comparators, outcomes, main results with effect sizes (relative and absolute if available), " ++
      "bias/limitations, funding/conflicts, and generalizability. " ++
      "Plain sentences only. No lists, no Markdown, no JSON." ++
      "\n\nUser preferences (optional): " ++ userNotesText userNotes ++
      "\n\nPaper chunk " ++ toString idx ++ "/" ++ toString total ++ ":\n" ++ ch
    match chat oracle SYSTEM_PROMPT user_prompt tr with
    | (.error e, tr') => (.error e, tr')
    | (.ok txt, tr') =>
      match strip_md txt with
      | .error e => (.error e, tr')
      | .ok note =>
        match notesLoop oracle userNotes total (idx + 1) rest tr' with
        | (.ok notes, tr'') => (.ok (note :: notes), tr'')
        | (.error e, tr'') => (.error e, tr'')

/-- `_summarize_in_chunks_to_notes` (lines 113-134). -/
def summarize_in_chunks_to_notes (oracle : Oracle) (paper_text : String)
    (userNotes : Option String) (tr : Trace) : Except PyErr (List String) × Trace :=
  let chunks := smart_split paper_text MAX_CHARS_PER_CHUNK CHUNK_OVERLAP
  notesLoop oracle userNotes chunks.length 1 chunks tr

/-- `_consolidate_notes_to_json_once` (lines 154-169): the template is
validated (possibly raising) *before* the completion call is issued. -/
def consolidate_notes_to_json_once (oracle : Oracle) (notes : List String)
    (t : Template) (userNotes : Option String) (tr : Trace) :
    Except PyErr String × Trace :=
  match make_output_instructions t with
  | .error e => (.error e, tr)
  | .ok (instructions, _shape) =>
    let notes_text := String.intercalate "\n\n" (notes.map (fun n => "- " ++ n))
    let user_prompt :=
      instructions ++ "\n\n" ++
      "Use the notes distilled from the paper to fill each value with 1–2 short sentences (≤" ++
      toString SENTENCE_MAX_WORDS ++ " words).\n" ++
      "If information is not present, write \"Not reported.\" Do not add new labels.\n" ++
      "User preferences (optional): " ++ userNotesText userNotes ++ "\n\n" ++
      "Paper notes:\n" ++ notes_text
    chat oracle SYSTEM_PROMPT user_prompt tr

def addSleep (tr : Trace) (ms : Nat) : Trace :=
  { tr with sleeps := tr.sleeps ++ [ms] }

/-- `_consolidate_notes_to_json_with_retries` (lines 137-151): any exception
from one attempt is caught; between attempts the loop sleeps
`0.6 * (attempt + 1)` seconds (recorded in milliseconds); after
`MAX_RETRIES` retries the last error is re-raised.  The fuel is
`MAX_RETRIES + 1 - attempt`, so the zero-fuel case (Python's unreachable
line 151) is never taken. -/
def retriesGo (oracle : Oracle) (notes : List String) (t : Template)
    (userNotes : Option String) : Nat → Nat → Trace → Except PyErr String × Trace
  | 0, _, tr => (.error (.apiError "unreachable"), tr)
  | fuel + 1, attempt, tr =>
    match consolidate_notes_to_json_once oracle notes t userNotes tr with
    | (.ok raw, tr') => (.ok raw, tr')
    | (.error e, tr') =>
      if attempt < MAX_RETRIES then
        retriesGo oracle notes t userNotes fuel (attempt + 1) (addSleep tr' (600 * (attempt + 1)))
      else (.error e, tr')

def consolidate_notes_to_json_with_retries (oracle : Oracle) (notes : List String)
    (t : Template) (userNotes : Option String) (tr : Trace) :
    Except PyErr String × Trace :=
  retriesGo oracle notes t userNotes (MAX_RETRIES + 1) 0 tr

/-- The result dictionary of `summarize_document` (lines 50-53). -/
structure SummOut where
  json : String
  text : String
deriving DecidableEq

deriving instance DecidableEq for Except

/-- `summarize_document` (lines 27-53): chunk and summarize (uncaught
per-chunk failures propagate), consolidate with retries, then validate and
render.  Note that `_parse_repair_and_lock_schema` runs *outside* the retry
loop. -/
def summarize_document (oracle : Oracle) (decode : String → Option PyVal)
    (paper_text : String) (t : Template) (userNotes : Option String) :
    Except PyErr SummOut × Trace :=
  match summarize_in_chunks_to_notes oracle paper_text userNotes ⟨0, []⟩ with
  | (.error e, tr) => (.error e, tr)
  | (.ok notes, tr) =>
    match consolidate_notes_to_json_with_retries oracle notes t userNotes tr with
    | (.error e, tr') => (.error e, tr')
    | (.ok raw, tr') =>
      match parse_repair_and_lock_schema decode raw t with
      | .error e => (.error e, tr')
      | .ok data => (.ok ⟨dumpsSummary data, render_plain data⟩, tr')

/-! # Claims

## C2 — the Chunker does not reconstruct the input

`_smart_split` loses the original paragraph separators: `re.split(r"\n{2,}")`
drops the separating newline runs and `flush_buf` re-joins buffered pieces
with exactly `"\n\n"` (after stripping), so concatenating the chunks of a
long text need not reproduce it. -/

/-- C2, counterexample: for the 8-character text `"ab.\n\n\ncd"` with
maximum length 5 and overlap 0 (so there are no overlap regions at all),
the Chunker returns `["ab.", "cd"]`, and the concatenation `"ab.cd"` is not
the original text — the three separating newlines are lost. -/
theorem C2_counterexample :
    smart_split "ab.\n\n\ncd" 5 0 = ["ab.", "cd"] ∧
    String.join (smart_split "ab.\n\n\ncd" 5 0) ≠ "ab.\n\n\ncd" := by
  decide

/-- C2 (amended): concatenation reproduces the input only in the one-chunk
case — a text no longer than the maximum chunk length is returned as the
single chunk `[text]` (summarizer.py lines 62-63); for longer texts the
Chunker normalizes whitespace (paragraph and sentence separators are
re-joined as `"\n\n"` and chunk edges are stripped), so concatenating the
chunks, even ignoring overlap regions, need not reproduce the text. -/
theorem C2_theorem (text : String) (maxLen overlap : Nat)
    (h : text.data.length ≤ maxLen) :
    smart_split text maxLen overlap = [text] := by
  unfold smart_split
  rw [if_pos h]

theorem C2_witness :
    ("hi" : String).data.length ≤ 10 ∧ smart_split "hi" 10 3 = ["hi"] :=
  ⟨by decide, C2_theorem "hi" 10 3 (by decide)⟩

/-! ## C3 — every chunk respects the maximum length

The final safety pass of `_smart_split` passes through chunks of length at
most `max_len` and hard-slices the rest into `ch[i:i+max_len]` pieces, so
every returned chunk has length at most `max_len`.  (For `max_len = 0` and
a nonempty over-length chunk the Python `while` loop would not terminate,
which is why the claim restricts to positive maxima.) -/

theorem hardSliceGo_length (maxLen overlap : Nat) :
    ∀ (fuel : Nat) (ch l : List Char),
      l ∈ hardSliceGo maxLen overlap fuel ch → l.length ≤ maxLen := by
  intro fuel
  induction fuel with
  | zero => intro ch l h; simp [hardSliceGo] at h
  | succ n ih =>
    intro ch l h
    unfold hardSliceGo at h
    split at h
    · simp at h
    · rcases List.mem_cons.mp h with rfl | h
      · exact List.length_take_le maxLen ch
      · exact ih _ _ h

theorem finalSafety_length (maxLen overlap : Nat) :
    ∀ (L : List (List Char)) (l : List Char),
      l ∈ finalSafety maxLen overlap L → l.length ≤ maxLen := by
  intro L
  induction L with
  | nil => intro l h; simp [finalSafety] at h
  | cons ch rest ih =>
    intro l h
    simp only [finalSafety, List.mem_append] at h
    rcases h with h | h
    · split at h
      · next hle => rw [List.mem_singleton.mp h]; exact hle
      · exact hardSliceGo_length maxLen overlap _ _ _ h
    · exact ih _ h

/-- C3: for every text, every positive maximum chunk length and every
overlap, every chunk returned by `_smart_split` has length at most the
maximum — in particular a paragraph or sentence longer than the maximum is
force-split by the final safety pass into `take max_len` slices. -/
theorem C3_theorem (text : String) (maxLen overlap : Nat) (_hpos : 0 < maxLen) :
    ∀ c ∈ smart_split text maxLen overlap, c.length ≤ maxLen := by
  intro c hc
  unfold smart_split at hc
  split at hc
  · next hle => rw [List.mem_singleton.mp hc]; exact hle
  · rcases List.mem_map.mp hc with ⟨l, hl, rfl⟩
    simpa [String.length] using finalSafety_length maxLen overlap _ l hl

theorem C3_witness :
    0 < 4 ∧ ∀ c ∈ smart_split "abcdefghij" 4 2, c.length ≤ 4 :=
  ⟨by decide, C3_theorem "abcdefghij" 4 2 (by decide)⟩

/-! ## C8 — truncation of over-long values

`_enforce_sentence_length` does not return "the first 30 words with
terminal punctuation appended": before re-applying punctuation it strips
trailing `,`/`;`/`:` characters from the truncation point (line 382's
`.rstrip(",;:")`), so a value whose 30th word ends in a comma loses that
comma. -/

/-- The truncation rule exactly as the claim words it: the first
`SENTENCE_MAX_WORDS` words, joined, with terminal punctuation appended when
not already present. -/
def truncate_spec_literal (s : String) : String :=
  let t := String.intercalate " " ((pySplitWs s).take SENTENCE_MAX_WORDS)
  match t.data.getLast? with
  | none => t
  | some c => if c = '.' || c = '!' || c = '?' then t else t ++ "."

/-- The truncation rule as amended: the first `SENTENCE_MAX_WORDS` words
joined, trailing `,`/`;`/`:` characters stripped from the truncation point,
then `.` appended unless the result already ends in `.`, `!` or `?`. -/
def truncate_spec_amended (s : String) : String :=
  let t : String :=
    ⟨pyRstrip (String.intercalate " " ((pySplitWs s).take SENTENCE_MAX_WORDS)).data [',', ';', ':']⟩
  match t.data.getLast? with
  | none => t
  | some c => if c = '.' || c = '!' || c = '?' then t else t ++ "."

/-- A 40-word value whose 30th word is `"end,"`. -/
def c8val : String :=
  String.intercalate " " (List.replicate 29 "w" ++ ["end,"] ++ List.replicate 10 "x")

/-- C8, counterexample: on this 40-word value (the configured maximum being
`SENTENCE_MAX_WORDS = 30`), the code returns `"w ... w end."` — the comma
ending the 30th word is stripped before the period is appended — which is
not the first 30 words with terminal punctuation appended
(`"w ... w end,."`). -/
theorem C8_counterexample :
    (pySplitWs c8val).length = 40 ∧
    enforce_sentence_length c8val ≠ truncate_spec_literal c8val := by
  decide

/-- C8 (amended): a value exceeding `SENTENCE_MAX_WORDS` words is truncated
to its first `SENTENCE_MAX_WORDS` words, trailing comma/semicolon/colon
characters are stripped from the truncation point, and a period is appended
unless the result already ends in terminal punctuation. -/
theorem C8_theorem (s : String) (h : SENTENCE_MAX_WORDS < (pySplitWs s).length) :
    enforce_sentence_length s = truncate_spec_amended s := by
  unfold enforce_sentence_length truncate_spec_amended
  rw [if_neg (Nat.not_le.mpr h)]

/-- A plain 40-word value. -/
def c8val2 : String := String.intercalate " " (List.replicate 40 "w")

theorem C8_witness :
    SENTENCE_MAX_WORDS < (pySplitWs c8val2).length ∧
    enforce_sentence_length c8val2 = truncate_spec_amended c8val2 :=
  ⟨by decide, C8_theorem c8val2 (by decide)⟩

/-! ## Shared facts about `lock_schema`

`_clean_value` raises `re.error` on every call (line 369 calls the broken
`_strip_md`), so the per-label loop of lines 268-271 aborts at its first
label and reconciliation succeeds only for templates all of whose sections
have empty item lists — producing blocks with cleaned headings and no
items. -/

/-- The per-label loop raises `re.error` at its first label, present or
absent. -/
theorem lockedItems_err (src : String → Option String) (lab : String)
    (rest : List String) :
    lockedItems src (lab :: rest) = .error (.reError reMsg) := rfl

/-- The per-label loop succeeds only on an empty label list, producing no
items. -/
theorem lockedItems_ok (src : String → Option String) (labels : List String)
    (its : List Item) (h : lockedItems src labels = .ok its) :
    labels = [] ∧ its = [] := by
  cases labels with
  | nil =>
    have h0 : (Except.ok [] : Except PyErr (List Item)) = .ok its := h
    simp only [Except.ok.injEq] at h0
    exact ⟨rfl, h0.symm⟩
  | cons lab rest =>
    rw [lockedItems_err] at h
    exact Except.noConfusion h

/-- An expected section with at least one label makes the per-section loop
raise `re.error`. -/
theorem lockedBlocks_cons_cons (sb : String → Option (String → Option String))
    (hd lab : String) (labs : List String) (rest : List (String × List String)) :
    lockedBlocks sb ((hd, lab :: labs) :: rest) = .error (.reError reMsg) := rfl

/-- An expected section with no labels contributes an empty block and the
loop continues. -/
theorem lockedBlocks_cons_nil (sb : String → Option (String → Option String))
    (hd : String) (rest : List (String × List String)) :
    lockedBlocks sb ((hd, []) :: rest) =
      Except.bind (lockedBlocks sb rest)
        (fun blocks => .ok ({ heading := hd, items := [] } :: blocks)) := rfl

/-- The per-section loop succeeds exactly when every expected section has an
empty label list; the produced blocks then carry the cleaned headings and no
items. -/
theorem lockedBlocks_ok (sb : String → Option (String → Option String)) :
    ∀ (expected : List (String × List String)) (bs : List Block),
      lockedBlocks sb expected = .ok bs →
      bs = expected.map (fun hl => { heading := hl.1, items := [] }) ∧
        ∀ hl ∈ expected, hl.2 = [] := by
  intro expected
  induction expected with
  | nil =>
    intro bs h
    have h0 : (Except.ok [] : Except PyErr (List Block)) = .ok bs := h
    simp only [Except.ok.injEq] at h0
    exact ⟨by simp [← h0], by simp⟩
  | cons hl rest ih =>
    intro bs h
    obtain ⟨hd, labels⟩ := hl
    cases labels with
    | cons lab labs =>
      rw [lockedBlocks_cons_cons] at h
      exact Except.noConfusion h
    | nil =>
      rw [lockedBlocks_cons_nil] at h
      cases hrest : lockedBlocks sb rest with
      | error e =>
        rw [hrest] at h
        exact Except.noConfusion h
      | ok bs' =>
        rw [hrest] at h
        have h2 : (Except.ok (({ heading := hd, items := [] } : Block) :: bs') :
            Except PyErr (List Block)) = .ok bs := h
        simp only [Except.ok.injEq] at h2
        obtain ⟨hmap, hall⟩ := ih bs' hrest
        subst h2
        refine ⟨by simp [hmap], ?_⟩
        intro x hx
        rcases List.mem_cons.mp hx with heq | hmem
        · subst heq; rfl
        · exact hall x hmem

/-- If some expected section has a nonempty label list, the per-section loop
raises `re.error`. -/
theorem lockedBlocks_err (sb : String → Option (String → Option String)) :
    ∀ (expected : List (String × List String)),
      (∃ hl ∈ expected, hl.2 ≠ []) →
      lockedBlocks sb expected = .error (.reError reMsg) := by
  intro expected
  induction expected with
  | nil =>
    intro h
    obtain ⟨hl, hmem, -⟩ := h
    exact absurd hmem (List.not_mem_nil hl)
  | cons hl rest ih =>
    intro h
    obtain ⟨hd, labels⟩ := hl
    cases labels with
    | cons lab labs => exact lockedBlocks_cons_cons sb hd lab labs rest
    | nil =>
      obtain ⟨x, hmem, hx⟩ := h
      rcases List.mem_cons.mp hmem with heq | hmem'
      · subst heq; exact absurd rfl hx
      · rw [lockedBlocks_cons_nil, ih ⟨x, hmem', hx⟩]
        rfl

/-- If every expected section has an empty label list, the per-section loop
succeeds with one empty block per section. -/
theorem lockedBlocks_empty (sb : String → Option (String → Option String)) :
    ∀ (expected : List (String × List String)),
      (∀ hl ∈ expected, hl.2 = []) →
      lockedBlocks sb expected =
        .ok (expected.map (fun hl => { heading := hl.1, items := [] })) := by
  intro expected
  induction expected with
  | nil => intro _; rfl
  | cons hl rest ih =>
    intro hall
    obtain ⟨hd, labels⟩ := hl
    have h1 : labels = [] := hall (hd, labels) (List.mem_cons_self _ _)
    subst h1
    rw [lockedBlocks_cons_nil, ih (fun x hx => hall x (List.mem_cons_of_mem _ hx))]
    rfl

/-- Any summary `lock_schema` accepts consists of empty-item blocks, one per
template section, and every template section then has an empty item list. -/
theorem lock_schema_ok_empty (t : Template) (blocks : List PyVal) (s : Summary)
    (h : lock_schema t blocks = .ok s) :
    s.blocks = (expectedShape t).map (fun hl => { heading := hl.1, items := [] }) ∧
      ∀ hl ∈ expectedShape t, hl.2 = [] := by
  unfold lock_schema at h
  cases hsb : buildSourceBlocks blocks (fun _ => none) with
  | error e => rw [hsb] at h; simp [Bind.bind, Except.bind] at h
  | ok sb =>
    rw [hsb] at h
    simp only [Bind.bind, Except.bind] at h
    cases hbs : lockedBlocks sb (expectedShape t) with
    | error e => rw [hbs] at h; simp at h
    | ok bs =>
      rw [hbs] at h
      have h2 : Summary.mk bs = s := by simpa using h
      obtain ⟨hmap, hall⟩ := lockedBlocks_ok sb (expectedShape t) bs hbs
      subst h2
      exact ⟨hmap, hall⟩

/-- The shape of any summary `lock_schema` accepts: its headings and labels
are the template's headings and labels after `_clean_inline`, in template
order — independently of the parsed blocks.  (With the broken `_strip_md`
acceptance forces all item lists empty, so the label clause holds with both
sides a list of empty lists.) -/
theorem lock_schema_shape (t : Template) (blocks : List PyVal) (s : Summary)
    (h : lock_schema t blocks = .ok s) :
    s.blocks.map Block.heading = t.sections.map (fun sec => clean_inline sec.heading) ∧
    s.blocks.map (fun b => b.items.map Item.label) =
      t.sections.map (fun sec => sec.items.map clean_inline) := by
  obtain ⟨hmap, hall⟩ := lock_schema_ok_empty t blocks s h
  constructor
  · rw [hmap]
    simp [expectedShape, List.map_map, Function.comp_def]
  · rw [hmap]
    simp only [expectedShape, List.map_map, Function.comp_def, List.map_nil]
    refine List.map_congr_left ?_
    intro sec hsec
    have hmem : (clean_inline sec.heading, sec.items.map clean_inline) ∈ expectedShape t :=
      List.mem_map_of_mem _ hsec
    have h2 := hall _ hmem
    simpa using h2.symm

/-- Every summary the Validator/Repairer accepts comes from `lock_schema`
on some parsed blocks list. -/
theorem parse_ok_lock (decode : String → Option PyVal) (raw : String)
    (t : Template) (s : Summary)
    (h : parse_repair_and_lock_schema decode raw t = .ok s) :
    ∃ blocks : List PyVal, lock_schema t blocks = .ok s := by
  unfold parse_repair_and_lock_schema at h
  split at h
  · simp at h
  · split at h
    · split at h
      · exact ⟨_, h⟩
      · simp at h
      · simp at h
    · simp at h

/-! ## C1 — the output shape mirrors the template only up to normalization

`_parse_repair_and_lock_schema` builds the output strictly from
`expected = [(_clean_inline(heading), [_clean_inline(label), ...]), ...]`
(line 246), so the returned headings and labels are the template's
headings and labels *after* `_clean_inline` — not the template's own
strings when those contain characters the cleanup removes. -/

/-- Table model of `json.loads` for the raw text `{"blocks":[]}` (checked
against the Python parser by hand). -/
def decC1 : String → Option PyVal :=
  fun s => if s = "\x7b\"blocks\":[]\x7d" then some (.dict [("blocks", .list [])]) else none

/-- C1, counterexample: for the (item-free) template with the single heading
`"A*B"` the Validator/Repairer accepts `{"blocks":[]}` and returns the
heading `"AB"` — `_clean_inline` deleted the asterisk — so the output's
headings are not exactly the template's headings.  (Templates with item
labels are never accepted at all: the broken `_strip_md` makes
`_clean_value` raise on every label.) -/
theorem C1_counterexample :
    parse_repair_and_lock_schema decC1 "\x7b\"blocks\":[]\x7d" ⟨[⟨"A*B", []⟩]⟩ =
      .ok ⟨[⟨"AB", []⟩]⟩ ∧
    (Summary.mk [⟨"AB", []⟩]).blocks.map Block.heading ≠
      (Template.mk [⟨"A*B", []⟩]).sections.map Sec.heading := by
  decide

/-- C1 (amended): for every template and every raw text the
Validator/Repairer accepts, the returned summary's block headings and item
labels are exactly the template's section headings and item labels *after
inline normalization* (`_clean_inline`), in the template's order — no
extra, missing or reordered blocks or items, regardless of the raw text;
they equal the template's own strings whenever those are already
normalized. -/
theorem C1_theorem (decode : String → Option PyVal) (raw : String)
    (t : Template) (s : Summary)
    (h : parse_repair_and_lock_schema decode raw t = .ok s) :
    s.blocks.map Block.heading = t.sections.map (fun sec => clean_inline sec.heading) ∧
    s.blocks.map (fun b => b.items.map Item.label) =
      t.sections.map (fun sec => sec.items.map clean_inline) := by
  obtain ⟨blocks, hb⟩ := parse_ok_lock decode raw t s h
  exact lock_schema_shape t blocks s hb

theorem C1_witness :
    (Summary.mk [⟨"H", []⟩]).blocks.map Block.heading =
      (Template.mk [⟨"H", []⟩]).sections.map (fun sec => clean_inline sec.heading) ∧
    (Summary.mk [⟨"H", []⟩]).blocks.map (fun b => b.items.map Item.label) =
      (Template.mk [⟨"H", []⟩]).sections.map (fun sec => sec.items.map clean_inline) :=
  C1_theorem decC1 "\x7b\"blocks\":[]\x7d" ⟨[⟨"H", []⟩]⟩ ⟨[⟨"H", []⟩]⟩ (by decide)

/-! ## C7 — missing fields do NOT become `"Not reported."`: they raise

Line 270 is `val = _clean_value(src.get(lab, "Not reported."))`:
`_clean_value` calls the broken `_strip_md` (line 350's invalid regex), so
it raises `re.error` for *every* expected label, present or absent — the
sentinel default of `src.get` is computed but then destroyed by the raise.
A missing field therefore always aborts the Validator/Repairer; only
templates with label-free sections reconcile at all, and those produce no
items to carry a sentinel. -/

/-- Table model of `json.loads` for the raw text `{"blocks":[]}` (checked
against the Python parser by hand), used by the C7 counterexample. -/
def decC7 : String → Option PyVal :=
  fun s => if s = "\x7b\"blocks\":[]\x7d" then some (.dict [("blocks", .list [])]) else none

/-- C7, counterexample: the template expects label `"L"` under heading
`"H"`, the accepted-format response `{"blocks":[]}` omits the whole
section — and the Validator/Repairer raises `re.error` instead of emitting
the sentinel `"Not reported."`. -/
theorem C7_counterexample :
    parse_repair_and_lock_schema decC7 "\x7b\"blocks\":[]\x7d" ⟨[⟨"H", ["L"]⟩]⟩ =
      .error (.reError reMsg) := by
  decide

/-- C7 (amended): once the incoming blocks are mapped without error, a
template containing *any* expected item label — in particular one whose
value is absent from the response — makes reconciliation raise `re.error`
(line 270's `_clean_value` raises on every label); reconciliation succeeds
only when every template section has an empty item list, and then the
output blocks carry the cleaned headings and no items, so the sentinel
`"Not reported."` is never emitted. -/
theorem C7_theorem (t : Template) (blocks : List PyVal)
    (sb : String → Option (String → Option String))
    (hsb : buildSourceBlocks blocks (fun _ => none) = .ok sb) :
    ((∃ sec ∈ t.sections, sec.items ≠ []) →
      lock_schema t blocks = .error (.reError reMsg)) ∧
    ((∀ sec ∈ t.sections, sec.items = []) →
      lock_schema t blocks =
        .ok ⟨t.sections.map (fun sec => Block.mk (clean_inline sec.heading) [])⟩) := by
  constructor
  · intro hex
    obtain ⟨sec, hmem, hne⟩ := hex
    have hex' : ∃ hl ∈ expectedShape t, hl.2 ≠ [] := by
      refine ⟨(clean_inline sec.heading, sec.items.map clean_inline),
        List.mem_map_of_mem _ hmem, ?_⟩
      simpa [List.map_eq_nil_iff] using hne
    unfold lock_schema
    rw [hsb]
    simp only [Bind.bind, Except.bind]
    rw [lockedBlocks_err sb (expectedShape t) hex']
  · intro hall
    have hall' : ∀ hl ∈ expectedShape t, hl.2 = [] := by
      intro hl hmem
      obtain ⟨sec, hs, rfl⟩ := List.mem_map.mp hmem
      simp [hall sec hs]
    unfold lock_schema
    rw [hsb]
    simp only [Bind.bind, Except.bind]
    rw [lockedBlocks_empty sb (expectedShape t) hall']
    simp [expectedShape, List.map_map, Function.comp_def]

theorem C7_witness :
    lock_schema ⟨[⟨"H", ["L"]⟩]⟩ [] = .error (.reError reMsg) ∧
    lock_schema ⟨[⟨"G", []⟩]⟩ [] = .ok ⟨[⟨"G", []⟩]⟩ := by
  constructor
  · have h1 := C7_theorem ⟨[⟨"H", ["L"]⟩]⟩ [] (fun _ => none) rfl
    exact h1.1 ⟨⟨"H", ["L"]⟩, by decide, by decide⟩
  · have h2 := C7_theorem ⟨[⟨"G", []⟩]⟩ [] (fun _ => none) rfl
    rw [h2.2 (by decide)]
    decide

/-! ## C10 — a present-but-empty value does not stay empty: it raises

A label that is present with an empty or whitespace-only raw value never
reaches the output: line 260's `_clean_value(it.get("value", ""))` raises
`re.error` while the source block is being mapped (the broken `_strip_md`),
and even a label-free mapping pass feeds every expected label through
line 270's `_clean_value`, which raises too.  No accepted summary carries
any item value at all — empty, sentinel, or otherwise. -/

/-- The parsed block list holding `{"heading": "H", "items": [{"label":
"L", "value": " "}]}` — the expected label present with a whitespace-only
raw value. -/
def c10blocks : List PyVal :=
  [.dict [("heading", .str "H"),
          ("items", .list [.dict [("label", .str "L"), ("value", .str " ")]])]]

/-- C10, counterexample: the expected label `"L"` is present under the
matching heading with the whitespace-only raw value `" "`, and
reconciliation raises `re.error` instead of emitting the item with value
`""`. -/
theorem C10_counterexample :
    lock_schema ⟨[⟨"H", ["L"]⟩]⟩ c10blocks = .error (.reError reMsg) := by
  decide

/-- C10 (amended): no item value — empty or not — is ever emitted: every
summary the schema-locking step accepts consists of blocks with empty item
lists, and any parsed `items` entry that is a dictionary (the only kind
whose `value` is read at all, line 260) makes the label-map loop raise —
`_clean_value` raises `re.error` on every input, including the empty and
whitespace-only values this claim is about. -/
theorem C10_theorem :
    (∀ (t : Template) (blocks : List PyVal) (s : Summary),
      lock_schema t blocks = .ok s → ∀ b ∈ s.blocks, b.items = []) ∧
    (∀ (items : List PyVal) (m : String → Option String)
      (kvs : List (String × PyVal)), .dict kvs ∈ items →
      ∃ e, buildLabelMap items m = .error e) := by
  constructor
  · intro t blocks s h b hb
    obtain ⟨hmap, -⟩ := lock_schema_ok_empty t blocks s h
    rw [hmap] at hb
    obtain ⟨hl, -, rfl⟩ := List.mem_map.mp hb
    rfl
  · intro items
    induction items with
    | nil =>
      intro m kvs hmem
      exact absurd hmem (List.not_mem_nil _)
    | cons it rest ih =>
      intro m kvs hmem
      rcases List.mem_cons.mp hmem with heq | hmem'
      · subst heq
        cases hc : cleanInlinePy (dictGet kvs "label" (.str "")) with
        | error e => exact ⟨e, by simp only [buildLabelMap]; rw [hc]; rfl⟩
        | ok lab => exact ⟨.reError reMsg, by simp only [buildLabelMap]; rw [hc]; rfl⟩
      · cases it with
        | dict kvs' =>
          cases hc : cleanInlinePy (dictGet kvs' "label" (.str "")) with
          | error e => exact ⟨e, by simp only [buildLabelMap]; rw [hc]; rfl⟩
          | ok lab => exact ⟨.reError reMsg, by simp only [buildLabelMap]; rw [hc]; rfl⟩
        | null => exact ih m kvs hmem'
        | bool b => exact ih m kvs hmem'
        | int n => exact ih m kvs hmem'
        | str s => exact ih m kvs hmem'
        | list xs => exact ih m kvs hmem'

theorem C10_witness :
    (∀ b ∈ (Summary.mk [⟨"H", []⟩]).blocks, b.items = []) ∧
    ∃ e, buildLabelMap [.dict [("label", .str "L"), ("value", .str " ")]]
      (fun _ => none) = .error e :=
  ⟨C10_theorem.1 ⟨[⟨"H", []⟩]⟩ [] ⟨[⟨"H", []⟩]⟩ (by decide),
   C10_theorem.2 [.dict [("label", .str "L"), ("value", .str " ")]] (fun _ => none)
     [("label", .str "L"), ("value", .str " ")] (List.mem_cons_self _ _)⟩

/-! ## Trace facts about the instrumented pipeline -/

theorem chat_ok (oracle : Oracle) (sys user : String) (tr : Trace) (r : String)
    (h : oracle tr.ncalls = .ok r) :
    chat oracle sys user tr = (.ok r, ⟨tr.ncalls + 1, tr.sleeps⟩) := by
  unfold chat
  rw [h]

theorem chat_error (oracle : Oracle) (sys user : String) (tr : Trace) (e : String)
    (h : oracle tr.ncalls = .error e) :
    chat oracle sys user tr = (.error (.apiError e), ⟨tr.ncalls + 1, tr.sleeps⟩) := by
  unfold chat
  rw [h]

/-- If the completion call for the first remaining chunk fails, the
per-chunk loop aborts with the `_APIError` after that one call: there is no
`try`/`except` in `_summarize_in_chunks_to_notes`. -/
theorem notesLoop_first_error (oracle : Oracle) (u : Option String)
    (total idx : Nat) (ch : String) (rest : List String) (tr : Trace) (e : String)
    (h : oracle tr.ncalls = .error e) :
    notesLoop oracle u total idx (ch :: rest) tr =
      (.error (.apiError e), ⟨tr.ncalls + 1, tr.sleeps⟩) := by
  simp only [notesLoop]
  rw [chat_error oracle _ _ tr e h]

/-- If the completion call for the first remaining chunk *succeeds*, the
per-chunk loop aborts all the same: line 133's `_strip_md(txt)` raises
`re.error` on every call.  Either way the loop never runs past its first
chunk. -/
theorem notesLoop_first_ok (oracle : Oracle) (u : Option String)
    (total idx : Nat) (ch : String) (rest : List String) (tr : Trace) (r : String)
    (h : oracle tr.ncalls = .ok r) :
    notesLoop oracle u total idx (ch :: rest) tr =
      (.error (.reError reMsg), ⟨tr.ncalls + 1, tr.sleeps⟩) := by
  simp only [notesLoop]
  rw [chat_ok oracle _ _ tr r h]
  rfl

/-- A template rejected by `_make_output_instructions` makes one
consolidation attempt fail before its completion call: the trace is
untouched. -/
theorem once_template_error (oracle : Oracle) (notes : List String) (t : Template)
    (u : Option String) (tr : Trace) (e : PyErr)
    (h : make_output_instructions t = .error e) :
    consolidate_notes_to_json_once oracle notes t u tr = (.error e, tr) := by
  unfold consolidate_notes_to_json_once
  rw [h]

/-- With a valid template, one consolidation attempt issues exactly one
completion call; a transport failure surfaces as `_APIError`. -/
theorem once_chat_error (oracle : Oracle) (notes : List String) (t : Template)
    (u : Option String) (tr : Trace) (instr : String)
    (shape : List (String × List String)) (e : String)
    (hok : make_output_instructions t = .ok (instr, shape))
    (herr : oracle tr.ncalls = .error e) :
    consolidate_notes_to_json_once oracle notes t u tr =
      (.error (.apiError e), ⟨tr.ncalls + 1, tr.sleeps⟩) := by
  unfold consolidate_notes_to_json_once
  rw [hok]
  exact chat_error oracle _ _ tr e herr

/-- When every attempt fails identically without touching the trace (the
template-error case), the retry loop sleeps 600 ms and 1200 ms and then
surfaces the error. -/
theorem retries_const_error (oracle : Oracle) (notes : List String) (t : Template)
    (u : Option String) (e : PyErr)
    (h : ∀ tr, consolidate_notes_to_json_once oracle notes t u tr = (.error e, tr))
    (tr : Trace) :
    consolidate_notes_to_json_with_retries oracle notes t u tr =
      (.error e, ⟨tr.ncalls, tr.sleeps ++ [600, 1200]⟩) := by
  simp only [consolidate_notes_to_json_with_retries, MAX_RETRIES, retriesGo, h, addSleep]
  norm_num

/-- A failing attempt with retries left: sleep and move to the next
attempt. -/
theorem retriesGo_step (oracle : Oracle) (notes : List String) (t : Template)
    (u : Option String) (fuel attempt : Nat) (tr tr' : Trace) (e : PyErr)
    (h : consolidate_notes_to_json_once oracle notes t u tr = (.error e, tr'))
    (hlt : attempt < MAX_RETRIES) :
    retriesGo oracle notes t u (fuel + 1) attempt tr =
      retriesGo oracle notes t u fuel (attempt + 1) (addSleep tr' (600 * (attempt + 1))) := by
  conv_lhs => unfold retriesGo
  rw [h]
  dsimp only
  rw [if_pos hlt]

/-- A failing attempt with no retries left surfaces the error. -/
theorem retriesGo_last (oracle : Oracle) (notes : List String) (t : Template)
    (u : Option String) (fuel attempt : Nat) (tr tr' : Trace) (e : PyErr)
    (h : consolidate_notes_to_json_once oracle notes t u tr = (.error e, tr'))
    (hge : ¬ attempt < MAX_RETRIES) :
    retriesGo oracle notes t u (fuel + 1) attempt tr = (.error e, tr') := by
  conv_lhs => unfold retriesGo
  rw [h]
  dsimp only
  rw [if_neg hge]

/-- When the template is valid but the three consolidation completion calls
all fail, the retry loop makes exactly three calls, sleeps 600 ms and
1200 ms, and surfaces the last error. -/
theorem retries_chat_errors (oracle : Oracle) (notes : List String) (t : Template)
    (u : Option String) (instr : String) (shape : List (String × List String))
    (tr : Trace) (e0 e1 e2 : String)
    (hok : make_output_instructions t = .ok (instr, shape))
    (h0 : oracle tr.ncalls = .error e0)
    (h1 : oracle (tr.ncalls + 1) = .error e1)
    (h2 : oracle (tr.ncalls + 2) = .error e2) :
    consolidate_notes_to_json_with_retries oracle notes t u tr =
      (.error (.apiError e2), ⟨tr.ncalls + 3, tr.sleeps ++ [600, 1200]⟩) := by
  have s0 := once_chat_error oracle notes t u tr instr shape e0 hok h0
  have s1 := once_chat_error oracle notes t u ⟨tr.ncalls + 1, tr.sleeps ++ [600]⟩
    instr shape e1 hok h1
  have s2 := once_chat_error oracle notes t u ⟨tr.ncalls + 1 + 1, tr.sleeps ++ [600] ++ [1200]⟩
    instr shape e2 hok (by simpa [Nat.add_assoc] using h2)
  show retriesGo oracle notes t u (2 + 1) 0 tr = _
  rw [retriesGo_step oracle notes t u 2 0 tr ⟨tr.ncalls + 1, tr.sleeps⟩
    (.apiError e0) s0 (by decide)]
  show retriesGo oracle notes t u (1 + 1) 1
    ⟨tr.ncalls + 1, tr.sleeps ++ [600]⟩ = _
  rw [retriesGo_step oracle notes t u 1 1 ⟨tr.ncalls + 1, tr.sleeps ++ [600]⟩
    ⟨tr.ncalls + 1 + 1, tr.sleeps ++ [600]⟩ (.apiError e1) s1 (by decide)]
  show retriesGo oracle notes t u (0 + 1) 2
    ⟨tr.ncalls + 1 + 1, tr.sleeps ++ [600] ++ [1200]⟩ = _
  rw [retriesGo_last oracle notes t u 0 2
    ⟨tr.ncalls + 1 + 1, tr.sleeps ++ [600] ++ [1200]⟩
    ⟨tr.ncalls + 1 + 1 + 1, tr.sleeps ++ [600] ++ [1200]⟩ (.apiError e2) s2 (by decide)]
  simp only [Prod.mk.injEq, Trace.mk.injEq, List.append_assoc, List.cons_append,
    List.nil_append, true_and, and_true]

/-! ## C4 — there is no template validation before the first model call

`summarize_document` calls `_summarize_in_chunks_to_notes` (which issues
the first completion call for any text with at least one chunk) *before*
`_consolidate_notes_to_json_with_retries`, where `_make_output_instructions`
would first inspect the template; and with the broken `_strip_md` the
per-chunk loop aborts right after its first call — transport failure or
`re.error` — so the template `ValueError` of lines 175-207 is unreachable
for such texts.  An empty `sections` list, moreover, passes the validation
entirely (`[]` is a list, and the per-section loop never runs). -/

def c4oracle2 : Oracle := fun _ => .ok "a note"

/-- C4, counterexample: the template whose `sections` list is empty (first
conjunct) and the invalid template containing a section with an empty item
list (second conjunct) fare exactly the same: no template error is raised
before — or after — the first completion call; the run issues that one call
and aborts with `re.error` from line 133, never inspecting the template. -/
theorem C4_counterexample :
    summarize_document c4oracle2 (fun _ => none) "x" ⟨[]⟩ none =
      (.error (.reError reMsg), ⟨1, []⟩) ∧
    summarize_document c4oracle2 (fun _ => none) "x" ⟨[⟨"H", []⟩]⟩ none =
      (.error (.reError reMsg), ⟨1, []⟩) := by
  decide

/-- C4 (amended): for every text with at least one chunk — whatever the
template, even one with no sections or with an empty heading or item
list — the pipeline issues its first per-chunk completion call and then
aborts with an error that is *not* a `ValueError`: either the call's
`_APIError` or line 133's `re.error`.  No template validation error is ever
raised before a model call, and for such texts none is raised at all. -/
theorem C4_theorem (oracle : Oracle) (decode : String → Option PyVal) (text : String)
    (t : Template) (u : Option String)
    (hne : smart_split text MAX_CHARS_PER_CHUNK CHUNK_OVERLAP ≠ []) :
    ∃ e, summarize_document oracle decode text t u = (.error e, ⟨1, []⟩) ∧
      ∀ m, e ≠ PyErr.valueError m := by
  obtain ⟨c, rest, hch⟩ := List.exists_cons_of_ne_nil hne
  cases horacle : oracle 0 with
  | error e =>
    refine ⟨.apiError e, ?_, fun m hcontra => PyErr.noConfusion hcontra⟩
    have hn : summarize_in_chunks_to_notes oracle text u ⟨0, []⟩ =
        (.error (.apiError e), ⟨1, []⟩) := by
      simp only [summarize_in_chunks_to_notes]
      rw [hch]
      exact notesLoop_first_error oracle u _ 1 c rest ⟨0, []⟩ e horacle
    unfold summarize_document
    rw [hn]
  | ok r =>
    refine ⟨.reError reMsg, ?_, fun m hcontra => PyErr.noConfusion hcontra⟩
    have hn : summarize_in_chunks_to_notes oracle text u ⟨0, []⟩ =
        (.error (.reError reMsg), ⟨1, []⟩) := by
      simp only [summarize_in_chunks_to_notes]
      rw [hch]
      exact notesLoop_first_ok oracle u _ 1 c rest ⟨0, []⟩ r horacle
    unfold summarize_document
    rw [hn]

theorem C4_witness :
    ∃ e, summarize_document c4oracle2 (fun _ => none) "y" ⟨[⟨"H", []⟩]⟩ none =
      (.error e, ⟨1, []⟩) ∧ ∀ m, e ≠ PyErr.valueError m :=
  C4_theorem c4oracle2 (fun _ => none) "y" ⟨[⟨"H", []⟩]⟩ none (by decide)

/-! ## C5 — a per-chunk failure aborts the run

The loop of `_summarize_in_chunks_to_notes` (lines 123-133) has no
`try`/`except`: an `_APIError` from `_chat` propagates out of
`summarize_document`, so the pipeline never reaches consolidation. -/

def c5oracle : Oracle :=
  fun n => if n = 0 then .error "boom" else .ok "\x7b\"blocks\":[]\x7d"

/-- C5, counterexample: when the completion call for the (only) chunk
fails, the pipeline does not drop the note and continue to consolidation —
it aborts with the `_APIError` after exactly one completion call, even
though every later call (second conjunct) would have succeeded. -/
theorem C5_counterexample :
    summarize_document c5oracle (fun _ => none) "x" ⟨[⟨"H", ["L"]⟩]⟩ none =
      (.error (.apiError "boom"), ⟨1, []⟩) ∧
    c5oracle 1 = .ok "\x7b\"blocks\":[]\x7d" := by
  decide

/-- C5 (amended): for every text with at least one chunk, the per-chunk
loop never continues past its first chunk, let alone catches anything: if
the first completion call raises a transport error, the `_APIError`
propagates uncaught and the run aborts after that one call (first
conjunct); and if the first call *succeeds*, the run aborts all the same
with line 133's `re.error` (second conjunct).  Consolidation is never
reached either way. -/
theorem C5_theorem (oracle : Oracle) (decode : String → Option PyVal) (text : String)
    (t : Template) (u : Option String)
    (hne : smart_split text MAX_CHARS_PER_CHUNK CHUNK_OVERLAP ≠ []) :
    (∀ e, oracle 0 = .error e →
      summarize_document oracle decode text t u = (.error (.apiError e), ⟨1, []⟩)) ∧
    (∀ r, oracle 0 = .ok r →
      summarize_document oracle decode text t u = (.error (.reError reMsg), ⟨1, []⟩)) := by
  obtain ⟨c, rest, hch⟩ := List.exists_cons_of_ne_nil hne
  constructor
  · intro e horacle
    have hn : summarize_in_chunks_to_notes oracle text u ⟨0, []⟩ =
        (.error (.apiError e), ⟨1, []⟩) := by
      simp only [summarize_in_chunks_to_notes]
      rw [hch]
      exact notesLoop_first_error oracle u _ 1 c rest ⟨0, []⟩ e horacle
    unfold summarize_document
    rw [hn]
  · intro r horacle
    have hn : summarize_in_chunks_to_notes oracle text u ⟨0, []⟩ =
        (.error (.reError reMsg), ⟨1, []⟩) := by
      simp only [summarize_in_chunks_to_notes]
      rw [hch]
      exact notesLoop_first_ok oracle u _ 1 c rest ⟨0, []⟩ r horacle
    unfold summarize_document
    rw [hn]

theorem C5_witness :
    summarize_document c5oracle (fun _ => none) "y" ⟨[⟨"H", ["L"]⟩]⟩ none =
      (.error (.apiError "boom"), ⟨1, []⟩) :=
  (C5_theorem c5oracle (fun _ => none) "y" ⟨[⟨"H", ["L"]⟩]⟩ none (by decide)).1
    "boom" (by decide)

/-! ## C6 — only request failures are retried; validation failures are not

`_consolidate_notes_to_json_with_retries` retries
`_consolidate_notes_to_json_once`, which only *issues* the consolidation
request; `_parse_repair_and_lock_schema` runs afterwards in
`summarize_document`, outside the retry loop, so a response that fails
validation surfaces its `ValueError` immediately with no retry and no
backoff. -/

def c6oracle : Oracle :=
  fun n => if n = 0 then .ok "hello" else .ok "\x7b\"blocks\":[]\x7d"

def c6decode : String → Option PyVal :=
  fun s => if s = "\x7b\"blocks\":[]\x7d" then some (.dict [("blocks", .list [])]) else none

/-- C6, counterexample: the consolidation request *succeeds* but returns
the unparseable text `"hello"`, so the retry loop stops after one
completion call with no sleep and no further attempt (first conjunct); the
Validator/Repairer — which `summarize_document` runs only afterwards,
outside the retry loop — then rejects the response with the content
`ValueError` (second conjunct), although the very next completion call
(third conjunct) would have returned valid JSON and a retry would have
succeeded.  A response failing validation is therefore *not* "treated the
same as a transport error for retry purposes". -/
theorem C6_counterexample :
    consolidate_notes_to_json_with_retries c6oracle [] ⟨[⟨"H", ["L"]⟩]⟩ none ⟨0, []⟩ =
      (.ok "hello", ⟨1, []⟩) ∧
    parse_repair_and_lock_schema c6decode "hello" ⟨[⟨"H", ["L"]⟩]⟩ =
      .error (.valueError
        "Model did not return valid JSON. Error: \nRaw (first 800 chars):\nhello") ∧
    c6oracle 1 = .ok "\x7b\"blocks\":[]\x7d" := by
  decide

/-- C6 (amended): a *failed consolidation request* is retried up to
`MAX_RETRIES` additional attempts with increasing backoff (600 ms then
1200 ms) and the last error is surfaced to the caller: on a valid template,
with the trace at `n` calls, three failing completion calls make the retry
loop issue exactly three calls, sleep `[600, 1200]`, and raise the third
error.  (A response failing the Validator/Repairer is *not* retried — see
the counterexample — and for texts with at least one chunk the broken
per-chunk loop aborts the run before consolidation is ever attempted.) -/
theorem C6_theorem (oracle : Oracle) (notes : List String) (t : Template)
    (u : Option String) (n : Nat) (instr : String)
    (shape : List (String × List String)) (e0 e1 e2 : String)
    (hok : make_output_instructions t = .ok (instr, shape))
    (h0 : oracle n = .error e0) (h1 : oracle (n + 1) = .error e1)
    (h2 : oracle (n + 2) = .error e2) :
    consolidate_notes_to_json_with_retries oracle notes t u ⟨n, []⟩ =
      (.error (.apiError e2), ⟨n + 3, [600, 1200]⟩) := by
  have h := retries_chat_errors oracle notes t u instr shape ⟨n, []⟩ e0 e1 e2 hok h0 h1 h2
  simpa using h

def c6oracle2 : Oracle := fun n => .error ("fail" ++ toString n)

theorem C6_witness :
    consolidate_notes_to_json_with_retries c6oracle2 [] ⟨[⟨"H", ["L"]⟩]⟩ none ⟨0, []⟩ =
      (.error (.apiError "fail2"), ⟨3, [600, 1200]⟩) :=
  C6_theorem c6oracle2 [] ⟨[⟨"H", ["L"]⟩]⟩ none 0 _ _ "fail0" "fail1" "fail2"
    rfl (by decide) (by decide) (by decide)

/-! ## C9 — reconciliation is *not* idempotent in general

Feeding `json.dumps(D)` back through the Validator/Repairer first applies
the textual repairs of lines 226-228 to the serialized text itself — in
particular line 226 rewrites a smart quote *inside a serialized heading*
into a plain `"`, corrupting the JSON so the second pass raises
`ValueError` instead of returning `D`.  With the broken
`_strip_md`, every summary the Validator/Repairer accepts consists of
empty-item blocks; for those, idempotence does hold whenever the repaired
serialization still decodes to `D`'s own value tree. -/

theorem dictGet_heading (h : String) (items : PyVal) :
    dictGet [("heading", .str h), ("items", items)] "heading" (.str "") = .str h := rfl

theorem dictGet_items (h : String) (items : PyVal) :
    dictGet [("heading", .str h), ("items", items)] "items" (.list []) = items := rfl

/-- `_clean_inline(x)` never raises on a parsed string value. -/
theorem cleanInlinePy_str_ok (s : String) : ∃ r, cleanInlinePy (.str s) = .ok r := by
  by_cases h : s = ""
  · subst h
    exact ⟨clean_inline "", rfl⟩
  · refine ⟨clean_inline s, ?_⟩
    have ht : pyTruthy (.str s) = true := by simp [pyTruthy, h]
    unfold cleanInlinePy
    rw [ht]
    rfl

/-- Mapping the serialized blocks of an all-empty-items summary never
raises: each block is a dictionary, its heading a string, its `items` list
empty — so line 260's raising `_clean_value` is never reached. -/
theorem buildSourceBlocks_empty_items :
    ∀ (bs : List Block) (m : String → Option (String → Option String)),
      (∀ b ∈ bs, b.items = []) →
      ∃ sb, buildSourceBlocks (bs.map blockToPyVal) m = .ok sb := by
  intro bs
  induction bs with
  | nil => intro m _; exact ⟨m, rfl⟩
  | cons b rest ih =>
    intro m hall
    have hbi : b.items = [] := hall b (List.mem_cons_self b rest)
    have hrest : ∀ x ∈ rest, x.items = [] :=
      fun x hx => hall x (List.mem_cons_of_mem _ hx)
    obtain ⟨hd, hh⟩ := cleanInlinePy_str_ok b.heading
    simp only [List.map_cons, blockToPyVal, buildSourceBlocks]
    rw [dictGet_heading, dictGet_items, hh, hbi]
    simp only [List.map_nil, buildLabelMap, Bind.bind, Except.bind]
    by_cases hne : hd = ""
    · subst hne
      rw [if_neg (by simp)]
      exact ih m hrest
    · rw [if_pos hne]
      exact ih (insertMap m hd (fun _ => none)) hrest

/-- C9 (amended): for every summary `D` the Validator/Repairer actually
produces — which, with the broken `_strip_md`, always consists of blocks
with empty item lists — feeding `json.dumps(D)` back through
`_parse_repair_and_lock_schema` with the same template returns `D`
unchanged, *provided* decoding the textually repaired serialization still
yields `D`'s own value tree.  That proviso is real: the line-226/228
repairs run on the serialized text itself and can corrupt it (see the
counterexample, where a smart quote in a heading makes the second pass
raise instead). -/
theorem C9_theorem (decode1 decode2 : String → Option PyVal) (raw : String)
    (t : Template) (D : Summary)
    (hD : parse_repair_and_lock_schema decode1 raw t = .ok D)
    (hdec : decode2 (preprocessRaw (dumpsSummary D)) = some (summaryToPyVal D)) :
    parse_repair_and_lock_schema decode2 (dumpsSummary D) t = .ok D := by
  obtain ⟨blocks0, hb0⟩ := parse_ok_lock decode1 raw t D hD
  obtain ⟨hmap, hall⟩ := lock_schema_ok_empty t blocks0 D hb0
  have hDitems : ∀ b ∈ D.blocks, b.items = [] := by
    intro b hb
    rw [hmap] at hb
    obtain ⟨hl, -, rfl⟩ := List.mem_map.mp hb
    rfl
  unfold parse_repair_and_lock_schema
  rw [hdec]
  show lock_schema t (D.blocks.map blockToPyVal) = .ok D
  obtain ⟨sb, hsb⟩ := buildSourceBlocks_empty_items D.blocks (fun _ => none) hDitems
  unfold lock_schema
  rw [hsb]
  simp only [Bind.bind, Except.bind]
  rw [lockedBlocks_empty sb (expectedShape t) hall, ← hmap]

/-! C9 counterexample material: a template heading containing a smart
quote character survives `_clean_inline` (which only strips `*`, backticks and
collapses whitespace), so the first pass accepts `{"blocks":[]}` and
returns a summary whose serialization contains the smart quote; the
line-226 replacement of that quote by a plain `"` in the second pass then
rewrites it inside the serialized heading, producing invalid JSON, and the re-parse raises
`ValueError`. -/

def c9T : Template := ⟨[⟨"“H", []⟩]⟩

def c9raw : String := "\x7b\"blocks\":[]\x7d"

def c9D : Summary := ⟨[⟨"“H", []⟩]⟩

/-- Table model of `json.loads` for this counterexample (checked against
the Python parser by hand): only the original raw response parses; the
repaired serialization of `c9D` is invalid JSON, so `decode` yields
`none` — a `json.JSONDecodeError`. -/
def c9decode : String → Option PyVal :=
  fun s => if s = c9raw then some (.dict [("blocks", .list [])]) else none

/-- C9, counterexample: the Validator/Repairer accepts `{"blocks":[]}` for
the template with heading `“H` and produces `D`; feeding `json.dumps(D)`
back with the same template does not return `D` — the smart-quote repair
corrupts the serialized heading and the second pass raises the
`ValueError` of line 243 instead. -/
theorem C9_counterexample :
    parse_repair_and_lock_schema c9decode c9raw c9T = .ok c9D ∧
    parse_repair_and_lock_schema c9decode (dumpsSummary c9D) c9T =
      .error (.valueError
        ("Model did not return valid JSON. Error: \nRaw (first 800 chars):\n" ++
          dumpsSummary c9D)) ∧
    parse_repair_and_lock_schema c9decode (dumpsSummary c9D) c9T ≠ .ok c9D := by
  decide

def c9wT : Template := ⟨[⟨"H", []⟩]⟩

def c9wraw : String := "\x7b\"blocks\":[]\x7d"

def c9wD : Summary := ⟨[⟨"H", []⟩]⟩

/-- Table model of `json.loads` for the witness's two texts (checked
against the Python parser by hand). -/
def c9wdecode : String → Option PyVal :=
  fun s =>
    if s = c9wraw then some (.dict [("blocks", .list [])])
    else if s = preprocessRaw (dumpsSummary c9wD) then some (summaryToPyVal c9wD)
    else none

theorem C9_witness :
    parse_repair_and_lock_schema c9wdecode (dumpsSummary c9wD) c9wT = .ok c9wD :=
  C9_theorem c9wdecode c9wdecode c9wraw c9wT c9wD (by decide) (by rfl)

end IPaper

